import Mathlib

/-!
Shallow embedding of custom_components/aquarea/climate.py
(heishamon-homeassistant): the zone-state reconciliation engine of the
HeishaMonZoneClimate entity.

Python flag enumerations are embedded as structures of Booleans, the
mutable entity attributes as an explicit record threaded through the
handlers, and the MQTT publish calls as an accumulated command list.
Exceptions (KeyError on an unknown wire value, the invalid-zone-id
raise) are embedded as Option: a `none` result is a raised exception,
in which case no attribute assignment that follows the raise in the
Python source has happened.
-/

/-- Flag set over the two zones, from class ZoneState(Flag) with members
ZONE1 and ZONE2. -/
structure ZoneState where
  zone1 : Bool
  zone2 : Bool
deriving DecidableEq

/-- ZoneState(0), the empty flag value. -/
def ZoneState.empty : ZoneState := ⟨false, false⟩

/-- Bitwise or of two flag values (Python operator on Flag). -/
def ZoneState.union (a b : ZoneState) : ZoneState :=
  ⟨a.zone1 || b.zone1, a.zone2 || b.zone2⟩

/-- Bitwise and of two flag values. -/
def ZoneState.inter (a b : ZoneState) : ZoneState :=
  ⟨a.zone1 && b.zone1, a.zone2 && b.zone2⟩

/-- Bitwise complement of a flag value. -/
def ZoneState.compl (a : ZoneState) : ZoneState :=
  ⟨!a.zone1, !a.zone2⟩

/-- Membership test, Python `m in s` on Flag values: s and m equals m. -/
def ZoneState.mem (m s : ZoneState) : Bool :=
  s.inter m = m

/-- ZoneState.from_id: id 1 maps to ZONE1, id 2 to ZONE2, anything else
raises (embedded as none). -/
def ZoneState.from_id (id : Nat) : Option ZoneState :=
  if id = 1 then some ⟨true, false⟩
  else if id = 2 then some ⟨false, true⟩
  else none

/-- ZoneState.to_mqtt: dictionary lookup {ZONE1: 0, ZONE2: 1,
ZONE1|ZONE2: 2}; the empty value is not in the dictionary, so looking it
up raises KeyError (none). -/
def ZoneState.to_mqtt : ZoneState → Option String
  | ⟨true, false⟩ => some "0"
  | ⟨false, true⟩ => some "1"
  | ⟨true, true⟩ => some "2"
  | ⟨false, false⟩ => none

/-- ZoneState.from_mqtt: int(value) then dictionary lookup
{0: ZONE1, 1: ZONE2, 2: ZONE1|ZONE2}; an unmapped integer raises
KeyError and a non-integer raises ValueError (both none).  Python int()
additionally tolerates alternative spellings of these integers (leading
zeroes, whitespace, an explicit sign), which no wire payload of this
protocol carries; the embedding matches the canonical spellings. -/
def ZoneState.from_mqtt (value : String) : Option ZoneState :=
  match value with
  | "0" => some ⟨true, false⟩
  | "1" => some ⟨false, true⟩
  | "2" => some ⟨true, true⟩
  | _ => none

/-- Modelled from the spec: class OperatingMode(Flag) is imported from
the module definitions.py, which is absent from src/.  The spec requires
a flag set of global modes containing at minimum Heat (section 3), with
an implementation-defined wire codec that round-trips (sections 3, 8)
over at least the wire values 0, 1 and 2 (section 8), encoding
"disabled" as 0 and heat-enabled as 1 (section 6).  A single-flag set
cannot give wire value 2 a decoding, so a second global mode flag is
modelled alongside Heat. -/
structure OperatingMode where
  heat : Bool
  cool : Bool
deriving DecidableEq

/-- OperatingMode(0), the empty flag value. -/
def OperatingMode.empty : OperatingMode := ⟨false, false⟩

/-- Bitwise or of two OperatingMode flag values. -/
def OperatingMode.union (a b : OperatingMode) : OperatingMode :=
  ⟨a.heat || b.heat, a.cool || b.cool⟩

/-- Bitwise and of two OperatingMode flag values. -/
def OperatingMode.inter (a b : OperatingMode) : OperatingMode :=
  ⟨a.heat && b.heat, a.cool && b.cool⟩

/-- Bitwise complement of an OperatingMode flag value. -/
def OperatingMode.compl (a : OperatingMode) : OperatingMode :=
  ⟨!a.heat, !a.cool⟩

/-- The OperatingMode.HEAT member. -/
def OperatingMode.heatFlag : OperatingMode := ⟨true, false⟩

/-- Membership test, Python `m in s` on OperatingMode flag values. -/
def OperatingMode.mem (m s : OperatingMode) : Bool :=
  s.inter m = m

/-- Modelled from the spec: OperatingMode.to_mqtt (definitions.py is
absent from src/).  Per the spec the encoding is implementation-defined
but must round-trip with from_mqtt, with 0 meaning disabled and 1
meaning heat enabled; the remaining two flag values are assigned the
remaining small integers. -/
def OperatingMode.to_mqtt : OperatingMode → String
  | ⟨false, false⟩ => "0"
  | ⟨true, false⟩ => "1"
  | ⟨true, true⟩ => "2"
  | ⟨false, true⟩ => "3"

/-- Modelled from the spec: OperatingMode.from_mqtt, inverse of the
to_mqtt map above; an unmapped payload raises (none). -/
def OperatingMode.from_mqtt (value : String) : Option OperatingMode :=
  match value with
  | "0" => some ⟨false, false⟩
  | "1" => some ⟨true, false⟩
  | "2" => some ⟨true, true⟩
  | "3" => some ⟨false, true⟩
  | _ => none

/-- class ZoneClimateMode(Enum): COMPENSATION = 1, DIRECT = 2. -/
inductive ZoneClimateMode
  | COMPENSATION
  | DIRECT
deriving DecidableEq

/-- The two HVACMode values the entity advertises
(_attr_hvac_modes = [HVACMode.HEAT, HVACMode.OFF]); its
async_set_hvac_mode raises NotImplemented for any other mode, so only
these two are embedded. -/
inductive HVACMode
  | heat
  | off
deriving DecidableEq

/-- An outbound MQTT publish: topic and payload, as handed to
async_publish (qos 0, retain False, utf-8 are constant and omitted). -/
structure Command where
  topic : String
  payload : String
deriving DecidableEq

/-- The mutable attributes of one HeishaMonZoneClimate instance that the
claims concern.  `writes` counts the calls to async_write_ha_state, the
notification by which any state mutation becomes observable to the host
application. -/
structure ClimateState where
  zone_id : Nat
  zone_state : ZoneState
  operating_mode : OperatingMode
  attr_hvac_mode : HVACMode
  mode : ZoneClimateMode
  attr_min_temp : Int
  attr_max_temp : Int
  attr_target_temperature_step : Int
  writes : Nat
deriving DecidableEq

/-- change_mode: records the new mode, sets the advertised bounds from
the mode (COMPENSATION: -5/5/1, otherwise 15/45/1), and, except during
initialization, writes HA state (the observable notification).  The
method never compares the new mode to the old one to decide whether to
act; the comparison in the source only selects the log line. -/
def change_mode (mode : ZoneClimateMode) (initialization : Bool)
    (st : ClimateState) : ClimateState :=
  let st1 := { st with mode := mode }
  let st2 :=
    if mode = ZoneClimateMode.COMPENSATION then
      { st1 with attr_min_temp := -5, attr_max_temp := 5,
                 attr_target_temperature_step := 1 }
    else
      { st1 with attr_min_temp := 15, attr_max_temp := 45,
                 attr_target_temperature_step := 1 }
  if initialization then st2 else { st2 with writes := st2.writes + 1 }

/-- The state of a freshly constructed entity for zone 1 (per __init__:
hvac mode OFF, both flag fields zero, mode DIRECT applied with
initialization=True). -/
def initState : ClimateState :=
  change_mode ZoneClimateMode.DIRECT true
    { zone_id := 1
      zone_state := ZoneState.empty
      operating_mode := OperatingMode.empty
      attr_hvac_mode := HVACMode.off
      mode := ZoneClimateMode.DIRECT
      attr_min_temp := 0
      attr_max_temp := 0
      attr_target_temperature_step := 0
      writes := 0 }

/-- guess_hvac_mode: HEAT when OperatingMode.HEAT is in the cached
operating mode AND this entity's zone flag is in the cached zone state,
OFF otherwise; ZoneState.from_id raises for an invalid zone id (none). -/
def guess_hvac_mode (st : ClimateState) : Option HVACMode := do
  let z ← ZoneState.from_id st.zone_id
  let global_heating := OperatingMode.mem OperatingMode.heatFlag st.operating_mode
  let zone_heating := ZoneState.mem z st.zone_state
  pure (if global_heating && zone_heating then HVACMode.heat else HVACMode.off)

/-- The topic dispatch of heating_conf_message_received: on the
Zones_State topic the decoded payload replaces the cached zone state
wholesale, on the Operating_Mode_State topic it replaces the cached
operating mode; a decoding failure raises (none) before the assignment,
and a message on any other topic touches neither field. -/
def heating_conf_update (dp topic payload : String)
    (st : ClimateState) : Option ClimateState :=
  if topic = dp ++ "main/Zones_State" then
    (ZoneState.from_mqtt payload).map fun zs => { st with zone_state := zs }
  else if topic = dp ++ "main/Operating_Mode_State" then
    (OperatingMode.from_mqtt payload).map fun om =>
      { st with operating_mode := om }
  else
    some st

/-- heating_conf_message_received: applies the topic dispatch above,
then recomputes _attr_hvac_mode via guess_hvac_mode and writes HA
state.  A raise anywhere (none) leaves every attribute assignment after
it unexecuted. -/
def heating_conf_message_received (dp topic payload : String)
    (st : ClimateState) : Option ClimateState :=
  (heating_conf_update dp topic payload st).bind fun st1 =>
    (guess_hvac_mode st1).map fun hv =>
      { st1 with attr_hvac_mode := hv, writes := st1.writes + 1 }

/-- Modelled from the spec: the message-dispatch boundary of the host
application (out of src/) invokes the subscribed callback and absorbs
any exception it raises with a diagnostic, so a failing status update
leaves the entity at its last-known-good state (spec sections 4.4, 7). -/
def heating_conf_step (dp topic payload : String)
    (st : ClimateState) : ClimateState :=
  (heating_conf_message_received dp topic payload st).getD st

/-- mode_received: payload "0" selects COMPENSATION, "1" selects DIRECT,
anything else fails an assertion (none); change_mode is invoked only
when the decoded mode differs from the current one. -/
def mode_received (payload : String) (st : ClimateState) :
    Option ClimateState := do
  let mode ←
    if payload = "0" then some ZoneClimateMode.COMPENSATION
    else if payload = "1" then some ZoneClimateMode.DIRECT
    else none
  pure (if mode ≠ st.mode then change_mode mode false st else st)

/-- async_set_temperature: logs per mode (no failure for either of the
two modes), then publishes str(temperature) to the zone's
SetZ{id}HeatRequestTemperature command topic.  No bounds check is
performed and no attribute is assigned.  The numeric payload is
embedded over Int, covering every value the claims exercise. -/
def async_set_temperature (dp : String) (temperature : Int)
    (st : ClimateState) : List Command × ClimateState :=
  ([⟨dp ++ "commands/SetZ" ++ toString st.zone_id ++
      "HeatRequestTemperature", toString temperature⟩], st)

/-- async_set_hvac_mode: for HEAT, new_zone_state is the cached zone
state or-ed with this zone's flag and new_operating_mode is the cached
operating mode or-ed with HEAT; for OFF, new_zone_state is the cached
zone state minus this zone's flag, and HEAT is dropped from the
operating mode exactly when new_zone_state is ZoneState(0).  Publishes
SetOperationMode iff new_operating_mode differs from the cached value,
then publishes SetZones iff new_zone_state is neither the cached value
nor ZoneState(0); finally assigns _attr_hvac_mode optimistically and
writes HA state.  Returns the published commands in publish order
together with the updated attributes; none embeds a raised exception
(invalid zone id, or a wire value missing from the to_mqtt map), before
which no attribute was assigned. -/
def async_set_hvac_mode (dp : String) (hvac_mode : HVACMode)
    (st : ClimateState) : Option (List Command × ClimateState) := do
  let z ← ZoneState.from_id st.zone_id
  let (new_zone_state, new_operating_mode) :=
    match hvac_mode with
    | HVACMode.heat =>
        (st.zone_state.union z,
         st.operating_mode.union OperatingMode.heatFlag)
    | HVACMode.off =>
        let nzs := st.zone_state.inter z.compl
        (nzs,
         if nzs = ZoneState.empty then
           st.operating_mode.inter OperatingMode.heatFlag.compl
         else
           st.operating_mode)
  let opCmds ←
    if new_operating_mode ≠ st.operating_mode then
      pure [Command.mk (dp ++ "commands/SetOperationMode")
              new_operating_mode.to_mqtt]
    else
      pure ([] : List Command)
  let zoneCmds ←
    if ¬ (new_zone_state = st.zone_state ∨ new_zone_state = ZoneState.empty)
    then do
      let p ← new_zone_state.to_mqtt
      pure [Command.mk (dp ++ "commands/SetZones") p]
    else
      pure ([] : List Command)
  pure (opCmds ++ zoneCmds,
        { st with attr_hvac_mode := hvac_mode, writes := st.writes + 1 })

/-- Sequential handoff of the published commands to the transport: each
publish either succeeds or raises; a raise aborts the sequence (the
remaining commands are not attempted). -/
def publishSeq (pub : Command → Bool) : List Command → Bool
  | [] => true
  | c :: rest => pub c && publishSeq pub rest

/-- async_set_hvac_mode run against a transport oracle `pub`: the
commands are handed over in order; when every handoff succeeds the
optimistic attribute assignment and HA-state write are committed
(flag true); when a handoff raises, the exception propagates out of the
coroutine before the assignment, leaving the attributes at their prior
value (flag false). -/
def run_set_hvac_mode (pub : Command → Bool) (dp : String)
    (hvac_mode : HVACMode) (st : ClimateState) :
    Option (ClimateState × Bool) :=
  match async_set_hvac_mode dp hvac_mode st with
  | none => none
  | some (cmds, st1) =>
      if publishSeq pub cmds then some (st1, true) else some (st, false)

/-- Written from the spec's words (section 3, DerivedControlState), for
comparison with guess_hvac_mode: zone_heating_requested(zone) AND
global_heat_enabled, a pure function of the two bitfields and the
zone id. -/
def derivedControlState (zs : ZoneState) (om : OperatingMode)
    (zone : Nat) : Bool :=
  (match zone with
   | 1 => zs.zone1
   | 2 => zs.zone2
   | _ => false) && om.heat

/-- Zone-1 entity with both zones active and global heat on. -/
def stBothOn : ClimateState :=
  { initState with zone_state := ⟨true, true⟩, operating_mode := ⟨true, false⟩ }

/-- Zone-1 entity with only zone 1 active and global heat on. -/
def stLastOn : ClimateState :=
  { initState with zone_state := ⟨true, false⟩, operating_mode := ⟨true, false⟩ }

/-- Zone-1 entity with zone 1 in the cached zone set but global heat
disabled: a stale combination of the two cached bitfields. -/
def stStaleZoneOn : ClimateState :=
  { initState with zone_state := ⟨true, false⟩ }

/-- Zone-1 entity with the cached zone set empty but global heat still
enabled: the other stale combination. -/
def stStaleHeatOn : ClimateState :=
  { initState with operating_mode := ⟨true, false⟩ }

/-- All handoffs succeed exactly when the sequential handoff reports
success. -/
theorem publishSeq_eq_true_iff (pub : Command → Bool) (l : List Command) :
    publishSeq pub l = true ↔ ∀ c ∈ l, pub c = true := by
  induction l with
  | nil => simp [publishSeq]
  | cons c rest ih => simp [publishSeq, ih]

/-- Claim C8: for every wire value v in {0,1,2}, encoding the decoding
of v gives back v, for the ZoneState codec and for the OperatingMode
codec. -/
theorem codec_round_trip :
    (ZoneState.from_mqtt "0").bind ZoneState.to_mqtt = some "0" ∧
    (ZoneState.from_mqtt "1").bind ZoneState.to_mqtt = some "1" ∧
    (ZoneState.from_mqtt "2").bind ZoneState.to_mqtt = some "2" ∧
    (OperatingMode.from_mqtt "0").map OperatingMode.to_mqtt = some "0" ∧
    (OperatingMode.from_mqtt "1").map OperatingMode.to_mqtt = some "1" ∧
    (OperatingMode.from_mqtt "2").map OperatingMode.to_mqtt = some "2" := by
  decide

/-- Claim C9: every application of change_mode outside initialization
records the new policy, sets the bounds derived from it, and performs
the HA-state write that makes the change observable — also when the new
policy equals the current one, since change_mode never compares them to
decide whether to act. -/
theorem change_mode_always_observable (mode : ZoneClimateMode)
    (st : ClimateState) :
    change_mode mode false st =
      { st with
          mode := mode,
          attr_min_temp := if mode = ZoneClimateMode.COMPENSATION then -5 else 15,
          attr_max_temp := if mode = ZoneClimateMode.COMPENSATION then 5 else 45,
          attr_target_temperature_step := 1,
          writes := st.writes + 1 } := by
  cases mode <;> rfl

/-- Claim C5, counterexample: under the DIRECT policy (whose advertised
bounds are 15..45), async_set_temperature with value 46 does not fail
and does emit an outbound command, contradicting the claim that an
out-of-range setpoint fails with OutOfRange and emits no command. -/
theorem set_temperature_no_bounds_check :
    initState.mode = ZoneClimateMode.DIRECT ∧
    initState.attr_max_temp = 45 ∧
    async_set_temperature "p/" 46 initState =
      ([⟨"p/commands/SetZ1HeatRequestTemperature", "46"⟩], initState) ∧
    ([⟨"p/commands/SetZ1HeatRequestTemperature", "46"⟩] : List Command) ≠ [] := by
  decide

/-- Claim C5, amended: async_set_temperature never validates the value —
for every value and every state it emits exactly one set-temperature
command carrying the raw value and leaves the attributes unchanged; the
active policy only determines the advertised bounds, via change_mode:
DIRECT gives 15/45/1 and COMPENSATION gives -5/5/1 (so 45 resp. 5 lie
within the advertised bounds while 46 resp. 6 do not). -/
theorem set_temperature_always_publishes (dp : String) (v : Int)
    (st : ClimateState) :
    async_set_temperature dp v st =
      ([⟨dp ++ "commands/SetZ" ++ toString st.zone_id ++
          "HeatRequestTemperature", toString v⟩], st) ∧
    (change_mode ZoneClimateMode.DIRECT false st).attr_min_temp = 15 ∧
    (change_mode ZoneClimateMode.DIRECT false st).attr_max_temp = 45 ∧
    (change_mode ZoneClimateMode.DIRECT false st).attr_target_temperature_step = 1 ∧
    (change_mode ZoneClimateMode.COMPENSATION false st).attr_min_temp = -5 ∧
    (change_mode ZoneClimateMode.COMPENSATION false st).attr_max_temp = 5 ∧
    (change_mode ZoneClimateMode.COMPENSATION false st).attr_target_temperature_step = 1 := by
  exact ⟨rfl, rfl, rfl, rfl, rfl, rfl, rfl⟩

/-- Claim C6: decoding the zone-set payload "3" fails, the raised error
leaves the handler without assigning the cached zone state, and the
host's dispatch boundary absorbs the failure, so the entity keeps its
previous state wholesale. -/
theorem malformed_zone_payload_preserves_state (dp : String)
    (st : ClimateState) :
    ZoneState.from_mqtt "3" = none ∧
    heating_conf_message_received dp (dp ++ "main/Zones_State") "3" st = none ∧
    heating_conf_step dp (dp ++ "main/Zones_State") "3" st = st := by
  refine ⟨rfl, ?_, ?_⟩
  · simp [heating_conf_message_received, heating_conf_update,
          ZoneState.from_mqtt]
  · simp [heating_conf_step, heating_conf_message_received,
          heating_conf_update, ZoneState.from_mqtt]

/-- Claim C1: requesting heat computes new_zone_state as the cached zone
set united with this zone and new_operating_mode as the cached operating
mode united with HEAT, emits the operating-mode command iff
new_operating_mode differs from the cached value, emits the zone-set
command iff new_zone_state differs from the cached value and from the
empty set, with the operating-mode command strictly first; from disabled
operating mode and empty zone set it returns exactly those two commands
in that order. -/
theorem zone_on_emits_mode_then_zones (dp : String) (st : ClimateState)
    (z : ZoneState) (hz : ZoneState.from_id st.zone_id = some z) :
    ∃ p, (st.zone_state.union z).to_mqtt = some p ∧
    async_set_hvac_mode dp HVACMode.heat st =
      some
        ((if st.operating_mode.union OperatingMode.heatFlag ≠ st.operating_mode
          then [⟨dp ++ "commands/SetOperationMode",
                 (st.operating_mode.union OperatingMode.heatFlag).to_mqtt⟩]
          else []) ++
         (if st.zone_state.union z ≠ st.zone_state ∧
             st.zone_state.union z ≠ ZoneState.empty
          then [⟨dp ++ "commands/SetZones", p⟩]
          else []),
         { st with attr_hvac_mode := HVACMode.heat,
                   writes := st.writes + 1 }) ∧
    (st.operating_mode = OperatingMode.empty → st.zone_state = ZoneState.empty →
      async_set_hvac_mode dp HVACMode.heat st =
        some ([⟨dp ++ "commands/SetOperationMode", "1"⟩,
               ⟨dp ++ "commands/SetZones", p⟩],
              { st with attr_hvac_mode := HVACMode.heat,
                        writes := st.writes + 1 })) := by
  obtain ⟨zid, ⟨a, b⟩, ⟨h, c⟩, hv, m, mn, mx, stp, w⟩ := st
  simp only [ZoneState.from_id] at hz
  by_cases h1 : zid = 1
  · subst h1
    simp only [if_pos rfl] at hz
    injection hz with hz
    subst hz
    cases a <;> cases b <;> cases h <;> cases c <;>
      refine ⟨_, rfl, rfl, fun hom hzs => ?_⟩ <;>
      first
        | rfl
        | simp_all [OperatingMode.empty, ZoneState.empty]
  · by_cases h2 : zid = 2
    · subst h2
      rw [if_neg h1, if_pos rfl] at hz
      injection hz with hz
      subst hz
      cases a <;> cases b <;> cases h <;> cases c <;>
        refine ⟨_, rfl, rfl, fun hom hzs => ?_⟩ <;>
        first
          | rfl
          | simp_all [OperatingMode.empty, ZoneState.empty]
    · rw [if_neg h1, if_neg h2] at hz
      exact Option.noConfusion hz

/-- Witness for claim C1 at the freshly initialized zone-1 entity:
operating mode disabled and zone set empty give exactly the
operating-mode command followed by the zone-set command. -/
theorem zone_on_emits_mode_then_zones_witness :
    (ZoneState.union initState.zone_state ⟨true, false⟩).to_mqtt = some "0" ∧
    async_set_hvac_mode "p/" HVACMode.heat initState =
      some ([⟨"p/commands/SetOperationMode", "1"⟩,
             ⟨"p/commands/SetZones", "0"⟩],
            { initState with attr_hvac_mode := HVACMode.heat,
                             writes := initState.writes + 1 }) := by
  obtain ⟨p, hp, hmain, hpart⟩ :=
    zone_on_emits_mode_then_zones "p/" initState ⟨true, false⟩ (by decide)
  have hp0 : p = "0" := (Option.some.inj ((by decide : (ZoneState.union
    initState.zone_state ⟨true, false⟩).to_mqtt = some "0").symm.trans hp)).symm
  subst hp0
  exact ⟨hp, hpart (by decide) (by decide)⟩

/-- Claim C2: requesting off computes new_zone_state as the cached zone
set minus this zone; when the result is the empty set, HEAT is dropped
from the operating mode and the only command ever emitted is the
operating-mode command (emitted iff it differs from the cached value),
never a zone-set command for the empty set; when the result is
non-empty, the operating mode is untouched and the only command ever
emitted is the zone-set command (emitted iff the set changed).  From
zones {ZONE1, ZONE2} with HEAT on, turning zone 1 off emits exactly the
zone-set command with wire encoding "1"; from zones {ZONE1} with HEAT
on, it emits exactly the command disabling the operating mode. -/
theorem zone_off_drops_heat_or_shrinks_zones (dp : String)
    (st : ClimateState) (z : ZoneState)
    (hz : ZoneState.from_id st.zone_id = some z) :
    (st.zone_state.inter z.compl = ZoneState.empty →
      async_set_hvac_mode dp HVACMode.off st =
        some
          ((if st.operating_mode.inter OperatingMode.heatFlag.compl ≠
               st.operating_mode
            then [⟨dp ++ "commands/SetOperationMode",
                   (st.operating_mode.inter
                     OperatingMode.heatFlag.compl).to_mqtt⟩]
            else []),
           { st with attr_hvac_mode := HVACMode.off,
                     writes := st.writes + 1 })) ∧
    (st.zone_state.inter z.compl ≠ ZoneState.empty →
      ∃ p, (st.zone_state.inter z.compl).to_mqtt = some p ∧
        async_set_hvac_mode dp HVACMode.off st =
          some
            ((if st.zone_state.inter z.compl ≠ st.zone_state
              then [⟨dp ++ "commands/SetZones", p⟩]
              else []),
             { st with attr_hvac_mode := HVACMode.off,
                       writes := st.writes + 1 })) ∧
    (st.zone_state = ⟨true, true⟩ → st.operating_mode = OperatingMode.heatFlag →
     st.zone_id = 1 →
      async_set_hvac_mode dp HVACMode.off st =
        some ([⟨dp ++ "commands/SetZones", "1"⟩],
              { st with attr_hvac_mode := HVACMode.off,
                        writes := st.writes + 1 })) ∧
    (st.zone_state = ⟨true, false⟩ → st.operating_mode = OperatingMode.heatFlag →
     st.zone_id = 1 →
      async_set_hvac_mode dp HVACMode.off st =
        some ([⟨dp ++ "commands/SetOperationMode", "0"⟩],
              { st with attr_hvac_mode := HVACMode.off,
                        writes := st.writes + 1 })) := by
  obtain ⟨zid, ⟨a, b⟩, ⟨h, c⟩, hv, m, mn, mx, stp, w⟩ := st
  simp only [ZoneState.from_id] at hz
  by_cases h1 : zid = 1
  · subst h1
    simp only [if_pos rfl] at hz
    injection hz with hz
    subst hz
    cases a <;> cases b <;> cases h <;> cases c <;>
      refine ⟨fun hemp => ?_, fun hne => ?_, fun e1 e2 e3 => ?_,
              fun f1 f2 f3 => ?_⟩ <;>
      first
        | rfl
        | (exact ⟨_, rfl, rfl⟩)
        | simp_all [OperatingMode.empty, ZoneState.empty, ZoneState.inter,
                    ZoneState.compl, OperatingMode.heatFlag]
  · by_cases h2 : zid = 2
    · subst h2
      rw [if_neg h1, if_pos rfl] at hz
      injection hz with hz
      subst hz
      cases a <;> cases b <;> cases h <;> cases c <;>
        refine ⟨fun hemp => ?_, fun hne => ?_, fun e1 e2 e3 => ?_,
                fun f1 f2 f3 => ?_⟩ <;>
        first
          | rfl
          | (exact ⟨_, rfl, rfl⟩)
          | simp_all [OperatingMode.empty, ZoneState.empty, ZoneState.inter,
                      ZoneState.compl, OperatingMode.heatFlag]
    · rw [if_neg h1, if_neg h2] at hz
      exact Option.noConfusion hz

/-- Witness for claim C2 at the last-active-zone state: zones {ZONE1}
with HEAT on, turning zone 1 off emits exactly the operating-mode
disable command and no zone-set command. -/
theorem zone_off_drops_heat_or_shrinks_zones_witness :
    async_set_hvac_mode "p/" HVACMode.off stLastOn =
      some ([⟨"p/commands/SetOperationMode", "0"⟩],
            { stLastOn with attr_hvac_mode := HVACMode.off,
                            writes := stLastOn.writes + 1 }) := by
  exact (zone_off_drops_heat_or_shrinks_zones "p/" stLastOn ⟨true, false⟩
    (by decide)).2.2.2 (by decide) (by decide) (by decide)

/-- Counterexample to claim C3: at the stale cached state where zone 1
is already in the cached zone set but HEAT is absent from the cached
operating mode, requesting "on" for zone 1 does NOT yield an empty
command list: it emits an operating-mode command (new_operating_mode
gains HEAT and so differs from the cached value). -/
theorem zone_on_already_member_not_noop :
    ZoneState.mem ⟨true, false⟩ stStaleZoneOn.zone_state = true ∧
    OperatingMode.mem OperatingMode.heatFlag stStaleZoneOn.operating_mode
      = false ∧
    (async_set_hvac_mode "p/" HVACMode.heat stStaleZoneOn).map Prod.fst =
      some [⟨"p/commands/SetOperationMode", "1"⟩] ∧
    some [(⟨"p/commands/SetOperationMode", "1"⟩ : Command)] ≠
      some ([] : List Command) := by
  decide

/-- Claim C3 as amended: requesting "on" for a zone already in the
cached zone set emits no zone-set command, and yields the empty command
list exactly when HEAT is already in the cached operating mode
(otherwise it emits exactly the operating-mode command); requesting
"off" for a zone not in the cached zone set yields the empty command
list exactly when the cached zone set is non-empty or HEAT is already
absent (otherwise — empty cached zone set with HEAT still on — it emits
exactly the operating-mode disable command). -/
theorem request_noop_iff_consistent (dp : String) (st : ClimateState)
    (z : ZoneState) (hz : ZoneState.from_id st.zone_id = some z) :
    (ZoneState.mem z st.zone_state = true →
      (async_set_hvac_mode dp HVACMode.heat st).map Prod.fst =
        some
          (if OperatingMode.mem OperatingMode.heatFlag st.operating_mode
           then []
           else [⟨dp ++ "commands/SetOperationMode",
                  (st.operating_mode.union OperatingMode.heatFlag).to_mqtt⟩])) ∧
    (ZoneState.mem z st.zone_state = false →
      (async_set_hvac_mode dp HVACMode.off st).map Prod.fst =
        some
          (if st.zone_state = ZoneState.empty ∧
              OperatingMode.mem OperatingMode.heatFlag st.operating_mode
           then [⟨dp ++ "commands/SetOperationMode",
                  (st.operating_mode.inter
                    OperatingMode.heatFlag.compl).to_mqtt⟩]
           else [])) := by
  obtain ⟨zid, ⟨a, b⟩, ⟨h, c⟩, hv, m, mn, mx, stp, w⟩ := st
  simp only [ZoneState.from_id] at hz
  by_cases h1 : zid = 1
  · subst h1
    simp only [if_pos rfl] at hz
    injection hz with hz
    subst hz
    cases a <;> cases b <;> cases h <;> cases c <;>
      refine ⟨fun hm => ?_, fun hm => ?_⟩ <;>
      first
        | rfl
        | simp_all [ZoneState.mem, ZoneState.inter, ZoneState.compl,
                    OperatingMode.mem, OperatingMode.inter,
                    OperatingMode.heatFlag]
  · by_cases h2 : zid = 2
    · subst h2
      rw [if_neg h1, if_pos rfl] at hz
      injection hz with hz
      subst hz
      cases a <;> cases b <;> cases h <;> cases c <;>
        refine ⟨fun hm => ?_, fun hm => ?_⟩ <;>
        first
          | rfl
          | simp_all [ZoneState.mem, ZoneState.inter, ZoneState.compl,
                      OperatingMode.mem, OperatingMode.inter,
                      OperatingMode.heatFlag]
    · rw [if_neg h1, if_neg h2] at hz
      exact Option.noConfusion hz

/-- Witness for the amended claim C3 at the consistent on-state: zone 1
in the zone set with HEAT on, requesting "on" again is a no-op. -/
theorem request_noop_iff_consistent_witness :
    (async_set_hvac_mode "p/" HVACMode.heat stLastOn).map Prod.fst =
      some [] := by
  have h := (request_noop_iff_consistent "p/" stLastOn ⟨true, false⟩
    (by decide)).1 (by decide)
  exact h.trans (by decide)

/-- For a valid zone id, guess_hvac_mode agrees with the spec's
DerivedControlState read off the two cached bitfields. -/
theorem guess_eq_derived (st : ClimateState)
    (h : st.zone_id = 1 ∨ st.zone_id = 2) :
    guess_hvac_mode st =
      some (if derivedControlState st.zone_state st.operating_mode st.zone_id
            then HVACMode.heat else HVACMode.off) := by
  obtain ⟨zid, ⟨a, b⟩, ⟨hh, c⟩, hv, m, mn, mx, stp, w⟩ := st
  rcases h with h | h <;>
    (have h1 : zid = _ := h
     subst h1
     cases a <;> cases b <;> cases hh <;> cases c <;> rfl)

/-- A successful topic dispatch never touches the zone id. -/
theorem heating_conf_update_zone_id (dp topic payload : String)
    (st st1 : ClimateState)
    (h : heating_conf_update dp topic payload st = some st1) :
    st1.zone_id = st.zone_id := by
  unfold heating_conf_update at h
  split at h
  · cases hm : ZoneState.from_mqtt payload with
    | none => simp [hm] at h
    | some v =>
        rw [hm] at h
        injection h with h
        subst h
        rfl
  · split at h
    · cases hm : OperatingMode.from_mqtt payload with
      | none => simp [hm] at h
      | some v =>
          rw [hm] at h
          injection h with h
          subst h
          rfl
    · injection h with h
      subst h
      rfl

/-- Claim C4: the derived on/off control state is the pure function
(zone in ZoneSet) AND (HEAT in OperatingMode) of the two cached
bitfields and the zone id, and after every successful status update of
either bitfield the stored _attr_hvac_mode equals that pure function
recomputed on the updated bitfields. -/
theorem derived_state_pure_function (st : ClimateState)
    (h : st.zone_id = 1 ∨ st.zone_id = 2) :
    guess_hvac_mode st =
      some (if derivedControlState st.zone_state st.operating_mode st.zone_id
            then HVACMode.heat else HVACMode.off) ∧
    ∀ (dp topic payload : String) (st1 : ClimateState),
      heating_conf_message_received dp topic payload st = some st1 →
      st1.attr_hvac_mode =
        (if derivedControlState st1.zone_state st1.operating_mode st1.zone_id
         then HVACMode.heat else HVACMode.off) := by
  refine ⟨guess_eq_derived st h, ?_⟩
  intro dp topic payload st1 hrec
  unfold heating_conf_message_received at hrec
  cases hu : heating_conf_update dp topic payload st with
  | none => rw [hu] at hrec; exact Option.noConfusion hrec
  | some stm =>
    rw [hu] at hrec
    have hzid : stm.zone_id = st.zone_id :=
      heating_conf_update_zone_id dp topic payload st stm hu
    replace hrec : (guess_hvac_mode stm).map (fun hv =>
        { stm with attr_hvac_mode := hv, writes := stm.writes + 1 }) =
        some st1 := hrec
    cases hg : guess_hvac_mode stm with
    | none => rw [hg] at hrec; exact Option.noConfusion hrec
    | some hvv =>
        rw [hg] at hrec
        injection hrec with hrec
        subst hrec
        have hgd := guess_eq_derived stm (by rw [hzid]; exact h)
        rw [hg] at hgd
        injection hgd with hgd

/-- Witness for claim C4 at the consistent on-state: zone 1 active with
HEAT on derives HEAT. -/
theorem derived_state_pure_function_witness :
    guess_hvac_mode stLastOn = some HVACMode.heat := by
  have h := (derived_state_pure_function stLastOn (Or.inl (by decide))).1
  exact h.trans (by decide)

/-- Claim C7: when the transport handoff of any emitted command fails,
the optimistic attribute update is not committed — the attributes stay
at their prior value and the failure is surfaced (flag false); the
optimistic update is committed only when every emitted command was
successfully handed to the transport. -/
theorem publish_failure_rolls_back (pub : Command → Bool) (dp : String)
    (m : HVACMode) (st : ClimateState) (cmds : List Command)
    (st1 : ClimateState)
    (hc : async_set_hvac_mode dp m st = some (cmds, st1)) :
    ((∃ c ∈ cmds, pub c = false) →
      run_set_hvac_mode pub dp m st = some (st, false)) ∧
    ((∀ c ∈ cmds, pub c = true) →
      run_set_hvac_mode pub dp m st = some (st1, true)) := by
  unfold run_set_hvac_mode
  rw [hc]
  constructor
  · rintro ⟨c, hcm, hpc⟩
    have hps : publishSeq pub cmds = false := by
      cases hps : publishSeq pub cmds
      · rfl
      · have := (publishSeq_eq_true_iff pub cmds).mp hps c hcm
        rw [this] at hpc
        exact absurd hpc (by simp)
    simp [hps]
  · intro hall
    have hps : publishSeq pub cmds = true :=
      (publishSeq_eq_true_iff pub cmds).mpr hall
    simp [hps]

/-- Witness for claim C7: a transport that refuses every handoff makes
the heat request from the fresh state surface the failure with the
attributes left at their prior value. -/
theorem publish_failure_rolls_back_witness :
    run_set_hvac_mode (fun _ => false) "p/" HVACMode.heat initState =
      some (initState, false) := by
  have hc : async_set_hvac_mode "p/" HVACMode.heat initState =
      some ([⟨"p/commands/SetOperationMode", "1"⟩,
             ⟨"p/commands/SetZones", "0"⟩],
            { initState with attr_hvac_mode := HVACMode.heat,
                             writes := initState.writes + 1 }) := by decide
  exact (publish_failure_rolls_back (fun _ => false) "p/" HVACMode.heat
    initState _ _ hc).1
    ⟨⟨"p/commands/SetOperationMode", "1"⟩, by simp, rfl⟩

/-- Claim C10: a hvac request leaves the two cached bitfields (and every
attribute other than _attr_hvac_mode and the HA-state write counter)
unchanged — the returned state is literally the input with only
_attr_hvac_mode set and one more write — so a second identical request
computes from the same bitfields and emits the same command list. -/
theorem set_hvac_mode_preserves_bitfields (dp : String) (st : ClimateState)
    (m : HVACMode) (h : st.zone_id = 1 ∨ st.zone_id = 2) :
    ∃ cmds,
      async_set_hvac_mode dp m st =
        some (cmds, { st with attr_hvac_mode := m,
                              writes := st.writes + 1 }) ∧
      async_set_hvac_mode dp m
          { st with attr_hvac_mode := m, writes := st.writes + 1 } =
        some (cmds, { st with attr_hvac_mode := m,
                              writes := st.writes + 2 }) := by
  obtain ⟨zid, ⟨a, b⟩, ⟨hh, c⟩, hv, mo, mn, mx, stp, w⟩ := st
  rcases h with h | h <;>
    (have h1 : zid = _ := h
     subst h1
     cases m <;> cases a <;> cases b <;> cases hh <;> cases c <;>
       exact ⟨_, rfl, rfl⟩)

/-- Witness for claim C10: after the heat request from the fresh state,
an identical second request sees the same bitfields and emits the same
commands. -/
theorem set_hvac_mode_preserves_bitfields_witness :
    (async_set_hvac_mode "p/" HVACMode.heat
        { initState with attr_hvac_mode := HVACMode.heat,
                         writes := initState.writes + 1 }).map Prod.fst =
      (async_set_hvac_mode "p/" HVACMode.heat initState).map Prod.fst := by
  obtain ⟨cmds, h1, h2⟩ := set_hvac_mode_preserves_bitfields "p/" initState
    HVACMode.heat (Or.inl (by decide))
  rw [h1, h2]
  simp
